import Mathlib

/-!
SwiftGrasp — shallow embedding of the structural-change analyzer

This file embeds the `StructuralChange` component of
`src/SwiftGrasp/utils.py` (and the input validators it relies on) in
Lean 4 and proves the specification's claims about it.

Modelling conventions:
* Python `datetime.date` values are `YMD` triples; `strftime("%Y-%m-%d")`
  and `strptime(s, "%Y-%m-%d")` are `strftimeYMD` / `strptimeYMD`
  (faithful on the `datetime`-valid range `1 ≤ year ≤ 9999`).
* Python string comparison on dates is Lean's lexicographic `String` order.
* A raised exception is `Except.error (e : PyExc)`; a returned value is
  `Except.ok`.  Note `_validate_input_frequency` can *return* an exception
  object as an ordinary value, which is `Except.ok (.pyExc e)`.
* The external `CausalImpact` model is an opaque parameter
  `model : CIModel`; the analyzer calls it with the data frame and the
  two periods exactly as the source does.
* Python `dict` (`self._ci_dict`) is an insertion-ordered association
  list: assignment overwrites in place when the key exists, else appends.
-/

namespace SwiftGrasp

/-- A Python exception value: its class name and message. -/
structure PyExc where
  kind : String
  msg : String
deriving DecidableEq, Repr

/-- Calendar date (the payload of a `datetime.datetime` at midnight). -/
structure YMD where
  y : Nat
  m : Nat
  d : Nat
deriving DecidableEq, Repr

/-- Gregorian leap-year rule, as `datetime` uses. -/
def isLeap (y : Nat) : Bool :=
  (y % 4 == 0 && y % 100 != 0) || (y % 400 == 0)

/-- Days in a month, as `datetime` validates. -/
def daysInMonth (y m : Nat) : Nat :=
  if m = 2 then (if isLeap y then 29 else 28)
  else if m = 4 ∨ m = 6 ∨ m = 9 ∨ m = 11 then 30
  else 31

/-- `datetime.timedelta(days=1)` subtraction on a valid date. -/
def ymdMinusOneDay (t : YMD) : YMD :=
  if t.d > 1 then ⟨t.y, t.m, t.d - 1⟩
  else if t.m > 1 then ⟨t.y, t.m - 1, daysInMonth t.y (t.m - 1)⟩
  else ⟨t.y - 1, 12, 31⟩

/-- Chronological (lexicographic) order on dates, as Python compares
`datetime` values. -/
def ymdLt (a b : YMD) : Bool :=
  a.y < b.y || (a.y == b.y && (a.m < b.m || (a.m == b.m && a.d < b.d)))

/-- The decimal digit character for `n % 10`. -/
def digitChar (n : Nat) : Char := Char.ofNat ('0'.toNat + n % 10)

/-- `strftime("%Y-%m-%d")`: zero-padded `YYYY-MM-DD` (years ≤ 9999,
the `datetime` range). -/
def strftimeYMD (t : YMD) : String :=
  ⟨[digitChar (t.y / 1000), digitChar (t.y / 100), digitChar (t.y / 10),
    digitChar t.y, '-', digitChar (t.m / 10), digitChar t.m, '-',
    digitChar (t.d / 10), digitChar t.d]⟩

/-- Lexicographic order on character lists, by code point. -/
def charListLt : List Char → List Char → Bool
  | [], [] => false
  | [], _ :: _ => true
  | _ :: _, [] => false
  | a :: as, b :: bs => a < b || (a == b && charListLt as bs)

/-- Python's `<` on `str`: lexicographic comparison by code point. -/
def strLt (a b : String) : Bool := charListLt a.data b.data

/-- Split a character list on `'-'` (the separators of `%Y-%m-%d`). -/
def splitDash : List Char → List (List Char)
  | [] => [[]]
  | c :: rest =>
    let r := splitDash rest
    if c = '-' then [] :: r
    else
      match r with
      | [] => [[c]]
      | g :: gs => (c :: g) :: gs

/-- Decimal value of a digit list (caller has checked all are digits). -/
def digitsVal (cs : List Char) : Nat :=
  cs.foldl (fun a c => a * 10 + (c.toNat - '0'.toNat)) 0

/-- `datetime.datetime.strptime(s, "%Y-%m-%d")`: the year field is 1–4
digits, month and day 1–2 digits, and the result must be a valid
`datetime` date (year ≥ 1, month 1–12, day within the month).  Returns
`none` where the source raises `ValueError`. -/
def strptimeYMD (s : String) : Option YMD :=
  match splitDash s.data with
  | [ys, ms, ds] =>
    if (decide (1 ≤ ys.length) && decide (ys.length ≤ 4) && ys.all (·.isDigit)
        && decide (1 ≤ ms.length) && decide (ms.length ≤ 2) && ms.all (·.isDigit)
        && decide (1 ≤ ds.length) && decide (ds.length ≤ 2) && ds.all (·.isDigit)) then
      let y := digitsVal ys
      let m := digitsVal ms
      let d := digitsVal ds
      if decide (1 ≤ y) && decide (1 ≤ m) && decide (m ≤ 12)
          && decide (1 ≤ d) && decide (d ≤ daysInMonth y m) then
        some ⟨y, m, d⟩
      else none
    else none
  | _ => none

/-- The analyzer's input: a date-indexed pandas `DataFrame` of prices.
Only the index (and, opaquely, the values handed to the external model)
is read by the analyzer's own logic. -/
structure DataFrame where
  index : List YMD
  values : List Int
deriving DecidableEq, Repr

/-- The Python values that can reach the validators: a `DataFrame`, a
string, `None`, or an exception object held as a value. -/
inductive PyObject where
  | dataFrame (df : DataFrame)
  | pyStr (s : String)
  | pyNone
  | pyExc (e : PyExc)
deriving DecidableEq, Repr

/-- `_validate_dtype_df` (utils.py): returns the object when it is a
`DataFrame`, raises `TypeError` otherwise. -/
def validateDtypeDf (obj : PyObject) : Except PyExc DataFrame :=
  match obj with
  | .dataFrame df => .ok df
  | _ => .error ⟨"TypeError", "Input needs to be pandas DataFrame object."⟩

/-- `FinancialStatementData._validate_input_frequency` (utils.py):
`None` maps to `"quarterly"`; a non-string raises `TypeError`;
`"annual"`/`"quarterly"` are returned; any other string falls through to
`return ValueError(...)` — the exception object is *returned*, not
raised. -/
def validateInputFrequency (obj : PyObject) : Except PyExc PyObject :=
  match obj with
  | .pyNone => .ok (.pyStr "quarterly")
  | .pyStr s =>
    if s = "annual" ∨ s = "quarterly" then .ok (.pyStr s)
    else .ok (.pyExc ⟨"ValueError",
      "The input string has to be either 'quarterly or 'annual'."⟩)
  | _ => .error ⟨"TypeError", "Input needs to be either None or String type."⟩

/-- The slice of `FinancialStatementData.__init__` that stores the
validated frequency (`self.frequency = self._validate_input_frequency(frequency)`);
the surrounding ticker check and data pull are external I/O. -/
structure FSDState where
  frequency : PyObject
deriving DecidableEq, Repr

def fsdSetFrequency (freq : PyObject) : Except PyExc FSDState :=
  (validateInputFrequency freq).map (fun v => ⟨v⟩)

/-- What the analyzer reads off a `CausalImpact` object: the `"average"`
column of `ci.summary_data` (statistic name → value) and `ci.p_value`. -/
structure Impact where
  summaryAverage : List (String × Rat)
  pValue : Rat
deriving DecidableEq, Repr

/-- The external `CausalImpact` constructor: called with
`(self._df, pre_period, post_period)` where the periods are two-element
string lists. -/
def CIModel : Type := DataFrame → List String → List String → Impact

/-- One row of the eventual summary: the impact's average-effect
statistics, its `"p-value"`, and the `"change_date"` tag. -/
structure Row where
  average : List (String × Rat)
  pValue : Rat
  changeDate : String
deriving DecidableEq, Repr

/-- Python `k in d` on the insertion-ordered association list. -/
def hasKey : List (String × Impact) → String → Bool
  | [], _ => false
  | p :: rest, k => p.1 == k || hasKey rest k

/-- Python `dict` assignment `d[k] = v` on an insertion-ordered
association list: overwrite in place when the key exists, else append. -/
def dictSet (d : List (String × Impact)) (k : String) (v : Impact) :
    List (String × Impact) :=
  if hasKey d k then d.map (fun p => if p.1 = k then (k, v) else p)
  else d ++ [(k, v)]

/-- Python `dict` lookup `d[k]`, `none` meaning `KeyError`. -/
def dictGet : List (String × Impact) → String → Option Impact
  | [], _ => none
  | p :: rest, k => if p.1 = k then some p.2 else dictGet rest k

/-- The state of a `StructuralChange` object (utils.py): the validated
data frame, the candidate date list, the min/max of the index recorded
as formatted strings at construction, the summary (`None` until
`analyze()`), and the date-keyed impact store `self._ci_dict`. -/
structure StructuralChange where
  df : DataFrame
  possibleDateList : List String
  dfIndexMin : String
  dfIndexMax : String
  dfSummary : Option (List Row)
  ciDict : List (String × Impact)
deriving DecidableEq, Repr

/-- Chronological minimum of a `DatetimeIndex` (`self._df.index.min()`). -/
def indexMin : List YMD → Option YMD
  | [] => none
  | t :: rest => some (rest.foldl (fun a b => if ymdLt b a then b else a) t)

/-- Chronological maximum of a `DatetimeIndex` (`self._df.index.max()`). -/
def indexMax : List YMD → Option YMD
  | [] => none
  | t :: rest => some (rest.foldl (fun a b => if ymdLt a b then b else a) t)

/-- `StructuralChange.__init__`: validates the frame's type, stores the
candidate list, and records `index.min()`/`index.max()` formatted as
`YYYY-MM-DD` strings; the summary starts as `None` and the impact store
empty.  (On an empty index the source's `.min()` yields `NaT`, whose
`strftime` raises; modelled as an error.) -/
def StructuralChange.init (obj : PyObject) (possibleDateList : List String) :
    Except PyExc StructuralChange :=
  match validateDtypeDf obj with
  | .error e => .error e
  | .ok df =>
    match indexMin df.index, indexMax df.index with
    | some mn, some mx =>
      .ok { df := df
            possibleDateList := possibleDateList
            dfIndexMin := strftimeYMD mn
            dfIndexMax := strftimeYMD mx
            dfSummary := none
            ciDict := [] }
    | _, _ => .error ⟨"ValueError", "NaTType does not support strftime"⟩

/-- `StructuralChange._analyze_one_date`: parses `dt` (raising
`ValueError` on malformed input), forms `dt_m1 = dt − 1 day`, and when
`self._df_index_min < dt_m1 and self._df_index_max > dt` (Python string
comparison) runs the model on
`pre_period = [min, dt_m1]`, `post_period = [dt, max]`, stores the
impact under `dt`, and returns the summary row; otherwise returns
`None` with the state untouched. -/
def StructuralChange.analyzeOneDate (model : CIModel) (sc : StructuralChange)
    (dt : String) : Except PyExc (StructuralChange × Option Row) :=
  match strptimeYMD dt with
  | none => .error ⟨"ValueError",
      "time data does not match format %Y-%m-%d"⟩
  | some t =>
    let dtM1 := strftimeYMD (ymdMinusOneDay t)
    if strLt sc.dfIndexMin dtM1 && strLt dt sc.dfIndexMax then
      let ci := model sc.df [sc.dfIndexMin, dtM1] [dt, sc.dfIndexMax]
      (.ok ({ sc with ciDict := dictSet sc.ciDict dt ci },
            some { average := ci.summaryAverage
                   pValue := ci.pValue
                   changeDate := dt }))
    else
      .ok (sc, none)

/-- The `for dt in self.possible_date_list` loop of
`StructuralChange.analyze`, threading the state and collecting the
non-`None` rows in order. -/
def analyzeLoop (model : CIModel) :
    StructuralChange → List String →
    Except PyExc (StructuralChange × List Row)
  | sc, [] => .ok (sc, [])
  | sc, dt :: rest =>
    match sc.analyzeOneDate model dt with
    | .error e => .error e
    | .ok (sc', r) =>
      match analyzeLoop model sc' rest with
      | .error e => .error e
      | .ok (sc'', rows) => .ok (sc'', r.toList ++ rows)

/-- `StructuralChange.analyze`: runs the loop, then
`pd.concat(res_list, axis=1).T.set_index("change_date")` — which raises
`ValueError` when `res_list` is empty — and stores the result as
`self._df_summary`. -/
def StructuralChange.analyze (model : CIModel) (sc : StructuralChange) :
    Except PyExc StructuralChange :=
  match analyzeLoop model sc sc.possibleDateList with
  | .error e => .error e
  | .ok (sc', rows) =>
    if rows.isEmpty then
      .error ⟨"ValueError", "No objects to concatenate"⟩
    else
      .ok { sc' with dfSummary := some rows }

/-- `StructuralChange.plot`: `self._ci_dict[dt].plot(show=show)` — a
plain dict lookup that raises `KeyError(dt)` when absent; the returned
impact is the object whose `plot` is then invoked (the figure itself is
an external side effect). -/
def StructuralChange.plot (sc : StructuralChange) (dt : String) :
    Except PyExc Impact :=
  match dictGet sc.ciDict dt with
  | some ci => .ok ci
  | none => .error ⟨"KeyError", dt⟩

/-- What `StructuralChange.summary` communicates: a warning (and no
value) when `self._df_summary is None`, otherwise the summary table. -/
structure SummaryOut where
  warning : Option String
  table : Option (List Row)
deriving DecidableEq, Repr

/-- `StructuralChange.summary`: warns and returns nothing before
`analyze()` has stored a summary; afterwards returns it. -/
def StructuralChange.summary (sc : StructuralChange) : SummaryOut :=
  match sc.dfSummary with
  | none =>
    { warning := some "No summary info yet, might want to call obj.analyze() first."
      table := none }
  | some t => { warning := none, table := some t }

/-- Boundary eligibility of a candidate date with respect to recorded
bounds, read off the source's condition: the date parses and
`self._df_index_min < (dt − 1 day)  and  self._df_index_max > dt`
under Python string comparison of the `YYYY-MM-DD` strings. -/
def eligibleStr (mn mx dt : String) : Bool :=
  match strptimeYMD dt with
  | none => false
  | some t => strLt mn (strftimeYMD (ymdMinusOneDay t)) && strLt dt mx

/-- Boundary eligibility of a candidate date for an analyzer state. -/
def StructuralChange.eligible (sc : StructuralChange) (dt : String) : Bool :=
  eligibleStr sc.dfIndexMin sc.dfIndexMax dt

/-- A two-day price frame covering 2020-01-01 through 2020-12-31 (only
the index extremes feed the analyzer's own logic). -/
def df2020 : DataFrame := ⟨[⟨2020, 1, 1⟩, ⟨2020, 12, 31⟩], [1, 2]⟩

/-- A concrete stand-in for the external `CausalImpact` model, used to
instantiate theorems on concrete inputs. -/
def model0 : CIModel := fun _ _ _ => ⟨[("actual", 3)], 1/2⟩

/-- The analyzer state that `StructuralChange.init` produces from
`df2020` and the spec's example candidate list. -/
def sc2020 : StructuralChange :=
  { df := df2020
    possibleDateList := ["2020-01-01", "2020-06-15", "2020-12-31"]
    dfIndexMin := "2020-01-01"
    dfIndexMax := "2020-12-31"
    dfSummary := none
    ciDict := [] }

/-- The impact `model0` reports for any invocation. -/
def ci0 : Impact := ⟨[("actual", 3)], 1/2⟩

/-- The summary row produced for candidate date 2020-06-15 by `model0`. -/
def row0 : Row := ⟨[("actual", 3)], 1/2, "2020-06-15"⟩

/-- The state reached from `sc2020` (with candidate list
`["2020-06-15"]`) after a successful `analyze` under `model0`. -/
def sc2020Analyzed : StructuralChange :=
  { df := df2020
    possibleDateList := ["2020-06-15"]
    dfIndexMin := "2020-01-01"
    dfIndexMax := "2020-12-31"
    dfSummary := some [row0]
    ciDict := [("2020-06-15", ci0)] }

/-- `sc2020` restricted to the single candidate date 2020-06-15, still
fresh (never analyzed). -/
def sc2020One : StructuralChange :=
  { sc2020 with possibleDateList := ["2020-06-15"] }

/-- An analyzer state whose store already holds an impact for
2020-06-15, used to exercise the overwrite path of `dict` assignment. -/
def scPre : StructuralChange :=
  { sc2020 with ciDict := [("2020-06-15", ⟨[("x", 0)], 0⟩)] }

end SwiftGrasp


namespace SwiftGrasp

/-! ## Basic lemmas about the embedded operations -/

/-- Unfold `eligibleStr` when the date parses. -/
theorem eligibleStr_of_parse (mn mx dt : String) (t : YMD)
    (hp : strptimeYMD dt = some t) :
    eligibleStr mn mx dt =
      (strLt mn (strftimeYMD (ymdMinusOneDay t)) && strLt dt mx) := by
  simp [eligibleStr, hp]

/-- `_analyze_one_date` on a malformed date raises `ValueError`. -/
theorem analyzeOneDate_malformed (model : CIModel) (sc : StructuralChange)
    (dt : String) (hp : strptimeYMD dt = none) :
    sc.analyzeOneDate model dt =
      .error ⟨"ValueError", "time data does not match format %Y-%m-%d"⟩ := by
  simp [StructuralChange.analyzeOneDate, hp]

/-- `_analyze_one_date` on an eligible date: runs the model on the two
periods, stores the impact under the date, and returns the summary row. -/
theorem analyzeOneDate_eligible (model : CIModel) (sc : StructuralChange)
    (dt : String) (t : YMD) (hp : strptimeYMD dt = some t)
    (he : (strLt sc.dfIndexMin (strftimeYMD (ymdMinusOneDay t))
            && strLt dt sc.dfIndexMax) = true) :
    sc.analyzeOneDate model dt =
      .ok ({ sc with ciDict := dictSet sc.ciDict dt (model sc.df [sc.dfIndexMin, strftimeYMD (ymdMinusOneDay t)] [dt, sc.dfIndexMax]) },
           some { average := (model sc.df [sc.dfIndexMin, strftimeYMD (ymdMinusOneDay t)] [dt, sc.dfIndexMax]).summaryAverage
                  pValue := (model sc.df [sc.dfIndexMin, strftimeYMD (ymdMinusOneDay t)] [dt, sc.dfIndexMax]).pValue
                  changeDate := dt }) := by
  simp [StructuralChange.analyzeOneDate, hp, he]

/-- `_analyze_one_date` on a parseable but boundary-ineligible date
returns `None` and leaves the state untouched. -/
theorem analyzeOneDate_ineligible (model : CIModel) (sc : StructuralChange)
    (dt : String) (t : YMD) (hp : strptimeYMD dt = some t)
    (he : (strLt sc.dfIndexMin (strftimeYMD (ymdMinusOneDay t))
            && strLt dt sc.dfIndexMax) = false) :
    sc.analyzeOneDate model dt = .ok (sc, none) := by
  simp [StructuralChange.analyzeOneDate, hp, he]

/-- Any successful `_analyze_one_date` call leaves every field except
the impact store unchanged. -/
theorem analyzeOneDate_preserves (model : CIModel) (sc sc' : StructuralChange)
    (dt : String) (r : Option Row)
    (h : sc.analyzeOneDate model dt = .ok (sc', r)) :
    sc'.df = sc.df ∧ sc'.possibleDateList = sc.possibleDateList ∧
    sc'.dfIndexMin = sc.dfIndexMin ∧ sc'.dfIndexMax = sc.dfIndexMax ∧
    sc'.dfSummary = sc.dfSummary := by
  unfold StructuralChange.analyzeOneDate at h
  cases hp : strptimeYMD dt with
  | none => rw [hp] at h; cases h
  | some t =>
    rw [hp] at h
    by_cases he : (strLt sc.dfIndexMin (strftimeYMD (ymdMinusOneDay t))
        && strLt dt sc.dfIndexMax) = true
    · simp only [he, if_pos] at h
      obtain ⟨h1, -⟩ := Prod.mk.injEq .. ▸ (Except.ok.injEq _ _ ▸ h)
      subst h1
      exact ⟨rfl, rfl, rfl, rfl, rfl⟩
    · simp only [Bool.not_eq_true] at he
      simp only [he, Bool.false_eq_true, if_neg, not_false_iff] at h
      obtain ⟨h1, -⟩ := Prod.mk.injEq .. ▸ (Except.ok.injEq _ _ ▸ h)
      subst h1
      exact ⟨rfl, rfl, rfl, rfl, rfl⟩

end SwiftGrasp

namespace SwiftGrasp

/-- The analyze loop preserves every field except the impact store. -/
theorem analyzeLoop_preserves (model : CIModel) (dts : List String) :
    ∀ (sc sc' : StructuralChange) (rows : List Row),
    analyzeLoop model sc dts = .ok (sc', rows) →
    sc'.df = sc.df ∧ sc'.possibleDateList = sc.possibleDateList ∧
    sc'.dfIndexMin = sc.dfIndexMin ∧ sc'.dfIndexMax = sc.dfIndexMax ∧
    sc'.dfSummary = sc.dfSummary := by
  induction dts with
  | nil =>
    intro sc sc' rows h
    simp only [analyzeLoop, Except.ok.injEq, Prod.mk.injEq] at h
    obtain ⟨h1, -⟩ := h
    subst h1
    exact ⟨rfl, rfl, rfl, rfl, rfl⟩
  | cons dt rest ih =>
    intro sc sc' rows h
    simp only [analyzeLoop] at h
    cases hstep : sc.analyzeOneDate model dt with
    | error e =>
      simp only [hstep] at h
      exact Except.noConfusion h
    | ok out =>
      obtain ⟨sc1, r⟩ := out
      simp only [hstep] at h
      cases hloop : analyzeLoop model sc1 rest with
      | error e =>
        simp only [hloop] at h
        exact Except.noConfusion h
      | ok out2 =>
        obtain ⟨sc2, rows2⟩ := out2
        simp only [hloop, Except.ok.injEq, Prod.mk.injEq] at h
        obtain ⟨h1, -⟩ := h
        subst h1
        obtain ⟨a1, a2, a3, a4, a5⟩ :=
          analyzeOneDate_preserves model sc sc1 dt r hstep
        obtain ⟨b1, b2, b3, b4, b5⟩ := ih sc1 sc2 rows2 hloop
        exact ⟨b1.trans a1, b2.trans a2, b3.trans a3, b4.trans a4, b5.trans a5⟩

/-- The analyze loop on a list of parseable dates succeeds and collects,
in candidate-list order, exactly one row per boundary-eligible entry,
each tagged with its candidate date. -/
theorem analyzeLoop_spec (model : CIModel) (dts : List String) :
    ∀ sc : StructuralChange, (∀ dt ∈ dts, (strptimeYMD dt).isSome) →
    ∃ sc' rows, analyzeLoop model sc dts = .ok (sc', rows) ∧
      rows.map Row.changeDate =
        dts.filter (eligibleStr sc.dfIndexMin sc.dfIndexMax) := by
  induction dts with
  | nil => intro sc _; exact ⟨sc, [], rfl, rfl⟩
  | cons dt rest ih =>
    intro sc hp
    obtain ⟨t, ht⟩ :=
      Option.isSome_iff_exists.mp (hp dt (List.mem_cons_self _ _))
    have hrest : ∀ d ∈ rest, (strptimeYMD d).isSome :=
      fun d hd => hp d (List.mem_cons_of_mem _ hd)
    by_cases he : (strLt sc.dfIndexMin (strftimeYMD (ymdMinusOneDay t))
        && strLt dt sc.dfIndexMax) = true
    · have hstep := analyzeOneDate_eligible model sc dt t ht he
      obtain ⟨sc', rows, hloop, hmap⟩ :=
        ih { sc with ciDict := dictSet sc.ciDict dt (model sc.df [sc.dfIndexMin, strftimeYMD (ymdMinusOneDay t)] [dt, sc.dfIndexMax]) } hrest
      have hcons : analyzeLoop model sc (dt :: rest) =
          .ok (sc', ({ average := (model sc.df [sc.dfIndexMin, strftimeYMD (ymdMinusOneDay t)] [dt, sc.dfIndexMax]).summaryAverage, pValue := (model sc.df [sc.dfIndexMin, strftimeYMD (ymdMinusOneDay t)] [dt, sc.dfIndexMax]).pValue, changeDate := dt } : Row) :: rows) := by
        simp only [analyzeLoop, hstep, hloop, Option.toList]
        rfl
      refine ⟨sc', _, hcons, ?_⟩
      have hel : eligibleStr sc.dfIndexMin sc.dfIndexMax dt = true := by
        rw [eligibleStr_of_parse _ _ dt t ht]; exact he
      simp only [List.map_cons, List.filter_cons, hel, if_pos]
      exact congrArg (_ :: ·) hmap
    · have hstep := analyzeOneDate_ineligible model sc dt t ht
        (Bool.not_eq_true _ ▸ he)
      obtain ⟨sc', rows, hloop, hmap⟩ := ih sc hrest
      have hcons : analyzeLoop model sc (dt :: rest) = .ok (sc', rows) := by
        simp only [analyzeLoop, hstep, hloop, Option.toList]
        rfl
      refine ⟨sc', rows, hcons, ?_⟩
      have hel : eligibleStr sc.dfIndexMin sc.dfIndexMax dt = false := by
        rw [eligibleStr_of_parse _ _ dt t ht]
        exact Bool.not_eq_true _ ▸ he
      simp only [List.filter_cons, hel, Bool.false_eq_true, if_neg,
        not_false_iff]
      exact hmap

end SwiftGrasp

namespace SwiftGrasp

/-- Overwriting an existing key leaves the key sequence unchanged. -/
theorem map_fst_overwrite (d : List (String × Impact)) (k : String) (v : Impact) :
    (d.map (fun p => if p.1 = k then (k, v) else p)).map Prod.fst =
      d.map Prod.fst := by
  induction d with
  | nil => rfl
  | cons p rest ih =>
    by_cases h : p.1 = k <;> simp [h, ih]

/-- `hasKey` decides membership in the key sequence. -/
theorem hasKey_iff_mem (d : List (String × Impact)) (k : String) :
    hasKey d k = true ↔ k ∈ d.map Prod.fst := by
  induction d with
  | nil => simp [hasKey]
  | cons p rest ih =>
    simp only [hasKey, Bool.or_eq_true, beq_iff_eq, List.map_cons,
      List.mem_cons, ih]
    constructor
    · rintro (h | h)
      exacts [Or.inl h.symm, Or.inr h]
    · rintro (h | h)
      exacts [Or.inl h.symm, Or.inr h]

/-- The key sequence after a `dict` assignment: unchanged on overwrite,
extended by the new key otherwise. -/
theorem dictSet_keys (d : List (String × Impact)) (k : String) (v : Impact) :
    (dictSet d k v).map Prod.fst =
      if hasKey d k then d.map Prod.fst else d.map Prod.fst ++ [k] := by
  unfold dictSet
  by_cases h : hasKey d k
  · rw [if_pos h, if_pos h, map_fst_overwrite]
  · rw [if_neg h, if_neg h, List.map_append]
    rfl

/-- `dict` assignment preserves key uniqueness. -/
theorem dictSet_nodup (d : List (String × Impact)) (k : String) (v : Impact)
    (hd : (d.map Prod.fst).Nodup) :
    ((dictSet d k v).map Prod.fst).Nodup := by
  rw [dictSet_keys]
  by_cases h : hasKey d k
  · simpa [h] using hd
  · have hk : k ∉ d.map Prod.fst := fun hmem =>
      h ((hasKey_iff_mem d k).mpr hmem)
    rw [if_neg h]
    exact List.Nodup.append hd (List.nodup_singleton k) (by simpa using hk)

/-- Overwriting preserves the number of entries. -/
theorem dictSet_length_of_hasKey (d : List (String × Impact)) (k : String)
    (v : Impact) (h : hasKey d k = true) :
    (dictSet d k v).length = d.length := by
  simp [dictSet, h]

/-- After `d[k] = v`, looking up `k` yields `v`. -/
theorem dictGet_dictSet_self (d : List (String × Impact)) (k : String)
    (v : Impact) : dictGet (dictSet d k v) k = some v := by
  unfold dictSet
  by_cases h : hasKey d k
  · simp only [h, if_pos]
    induction d with
    | nil => cases h
    | cons p rest ih =>
      by_cases hp : p.1 = k
      · simp [dictGet, hp]
      · have hr : hasKey rest k = true := by
          have := h
          simp only [hasKey, Bool.or_eq_true, beq_iff_eq] at this
          exact this.resolve_left hp
        simp only [List.map_cons, if_neg hp]
        simp only [dictGet, if_neg hp]
        exact ih hr
  · simp only [h, Bool.false_eq_true, if_neg, not_false_iff]
    induction d with
    | nil => simp [dictGet]
    | cons p rest ih =>
      have hp : p.1 ≠ k := by
        intro hpk
        apply h
        simp [hasKey, hpk]
      have hr : ¬ hasKey rest k = true := by
        intro hrk
        apply h
        simp [hasKey, hrk]
      simp only [List.cons_append, dictGet, if_neg hp]
      exact ih hr

/-- A successful `analyze` stores the collected rows as the summary. -/
theorem analyze_ok_iff (model : CIModel) (sc sc' : StructuralChange) :
    sc.analyze model = .ok sc' ↔
    ∃ sc1 rows, analyzeLoop model sc sc.possibleDateList = .ok (sc1, rows) ∧
      rows ≠ [] ∧ sc' = { sc1 with dfSummary := some rows } := by
  unfold StructuralChange.analyze
  constructor
  · intro h
    cases hloop : analyzeLoop model sc sc.possibleDateList with
    | error e =>
      rw [hloop] at h
      exact Except.noConfusion h
    | ok out =>
      obtain ⟨sc1, rows⟩ := out
      rw [hloop] at h
      by_cases hne : rows.isEmpty
      · simp only [hne, if_pos] at h
        exact Except.noConfusion h
      · simp only [hne, if_neg, Bool.false_eq_true, not_false_iff] at h
        refine ⟨sc1, rows, rfl, ?_, ?_⟩
        · intro hnil
          exact hne (by simp [hnil])
        · obtain h1 := Except.ok.injEq .. ▸ h
          exact h1.symm
  · rintro ⟨sc1, rows, hloop, hne, rfl⟩
    rw [hloop]
    have : rows.isEmpty = false := by
      cases rows with
      | nil => exact absurd rfl hne
      | cons a l => rfl
    simp [this]

/-- `__init__` on a `DataFrame` with a nonempty index: records the
formatted extremes, an empty store, and no summary. -/
theorem init_ok (df : DataFrame) (l : List String) (mn mx : YMD)
    (hmn : indexMin df.index = some mn) (hmx : indexMax df.index = some mx) :
    StructuralChange.init (.dataFrame df) l =
      .ok { df := df, possibleDateList := l, dfIndexMin := strftimeYMD mn,
            dfIndexMax := strftimeYMD mx, dfSummary := none, ciDict := [] } := by
  simp [StructuralChange.init, validateDtypeDf, hmn, hmx]

end SwiftGrasp

namespace SwiftGrasp

/-- A constructed analyzer starts with no summary and an empty store. -/
theorem init_fields (obj : PyObject) (l : List String) (sc0 : StructuralChange)
    (h : StructuralChange.init obj l = .ok sc0) :
    sc0.dfSummary = none ∧ sc0.ciDict = [] := by
  unfold StructuralChange.init at h
  split at h
  · exact Except.noConfusion h
  · split at h
    · obtain h1 := Except.ok.injEq .. ▸ h
      rw [← h1]
      exact ⟨rfl, rfl⟩
    · exact Except.noConfusion h

/-- A successful `_analyze_one_date` keeps the store's keys unique. -/
theorem analyzeOneDate_nodup (model : CIModel) (sc sc' : StructuralChange)
    (dt : String) (r : Option Row)
    (h : sc.analyzeOneDate model dt = .ok (sc', r))
    (hnd : (sc.ciDict.map Prod.fst).Nodup) :
    (sc'.ciDict.map Prod.fst).Nodup := by
  unfold StructuralChange.analyzeOneDate at h
  cases hp : strptimeYMD dt with
  | none => rw [hp] at h; exact Except.noConfusion h
  | some t =>
    rw [hp] at h
    by_cases he : (strLt sc.dfIndexMin (strftimeYMD (ymdMinusOneDay t))
        && strLt dt sc.dfIndexMax) = true
    · simp only [he, if_pos] at h
      obtain ⟨h1, -⟩ := Prod.mk.injEq .. ▸ (Except.ok.injEq _ _ ▸ h)
      rw [← h1]
      exact dictSet_nodup _ _ _ hnd
    · simp only [Bool.not_eq_true] at he
      simp only [he, Bool.false_eq_true, if_neg, not_false_iff] at h
      obtain ⟨h1, -⟩ := Prod.mk.injEq .. ▸ (Except.ok.injEq _ _ ▸ h)
      rw [← h1]
      exact hnd

/-- The analyze loop keeps the store's keys unique. -/
theorem analyzeLoop_nodup (model : CIModel) (dts : List String) :
    ∀ (s0 s1 : StructuralChange) (rows : List Row),
    (s0.ciDict.map Prod.fst).Nodup →
    analyzeLoop model s0 dts = .ok (s1, rows) →
    (s1.ciDict.map Prod.fst).Nodup := by
  induction dts with
  | nil =>
    intro s0 s1 rows hnd h
    simp only [analyzeLoop, Except.ok.injEq, Prod.mk.injEq] at h
    obtain ⟨h1, -⟩ := h
    subst h1
    exact hnd
  | cons dt rest ih =>
    intro s0 s1 rows hnd h
    simp only [analyzeLoop] at h
    cases hstep : s0.analyzeOneDate model dt with
    | error e =>
      simp only [hstep] at h
      exact Except.noConfusion h
    | ok out =>
      obtain ⟨sc1, r⟩ := out
      simp only [hstep] at h
      cases hloop : analyzeLoop model sc1 rest with
      | error e =>
        simp only [hloop] at h
        exact Except.noConfusion h
      | ok out2 =>
        obtain ⟨sc2, rows2⟩ := out2
        simp only [hloop, Except.ok.injEq, Prod.mk.injEq] at h
        obtain ⟨h1, -⟩ := h
        subst h1
        exact ih sc1 sc2 rows2
          (analyzeOneDate_nodup model s0 sc1 dt r hstep hnd) hloop

/-! ## Claim theorems -/

/-- **C1.** For every candidate date string `d` that parses as
`YYYY-MM-DD`, `_analyze_one_date(d)` produces exactly one result row
tagged with `d` if and only if the recorded `series_min_date` is
strictly below the formatted `d − 1 day` and the recorded
`series_max_date` is strictly above `d` (the source compares the
`YYYY-MM-DD` strings, which on canonical strings agrees with date
order); for every other such `d` it returns `None` — no error, no new
entry in the result store. -/
theorem analyze_one_date_row_iff (model : CIModel) (sc : StructuralChange)
    (dt : String) (t : YMD) (hp : strptimeYMD dt = some t) :
    ((∃ sc' r, sc.analyzeOneDate model dt = .ok (sc', some r) ∧
        r.changeDate = dt) ↔
      (strLt sc.dfIndexMin (strftimeYMD (ymdMinusOneDay t)) = true ∧
        strLt dt sc.dfIndexMax = true)) ∧
    (¬(strLt sc.dfIndexMin (strftimeYMD (ymdMinusOneDay t)) = true ∧
        strLt dt sc.dfIndexMax = true) →
      sc.analyzeOneDate model dt = .ok (sc, none)) := by
  constructor
  · constructor
    · rintro ⟨sc', r, hok, -⟩
      by_cases he : (strLt sc.dfIndexMin (strftimeYMD (ymdMinusOneDay t))
          && strLt dt sc.dfIndexMax) = true
      · exact Bool.and_eq_true _ _ ▸ he
      · rw [analyzeOneDate_ineligible model sc dt t hp
          (Bool.not_eq_true _ ▸ he)] at hok
        obtain ⟨-, h2⟩ := Prod.mk.injEq .. ▸ (Except.ok.injEq _ _ ▸ hok)
        exact Option.noConfusion h2
    · intro he
      have he' : (strLt sc.dfIndexMin (strftimeYMD (ymdMinusOneDay t))
          && strLt dt sc.dfIndexMax) = true :=
        (Bool.and_eq_true _ _).mpr he
      exact ⟨_, _, analyzeOneDate_eligible model sc dt t hp he', rfl⟩
  · intro he
    have he' : (strLt sc.dfIndexMin (strftimeYMD (ymdMinusOneDay t))
        && strLt dt sc.dfIndexMax) = false := by
      cases hb : (strLt sc.dfIndexMin (strftimeYMD (ymdMinusOneDay t))
          && strLt dt sc.dfIndexMax)
      · rfl
      · exact absurd (Bool.and_eq_true _ _ ▸ hb) he
    exact analyzeOneDate_ineligible model sc dt t hp he'

/-- Witness for C1: the in-range date 2020-06-15 over a series covering
2020-01-01 through 2020-12-31. -/
theorem analyze_one_date_row_iff_witness :
    ((∃ sc' r, sc2020.analyzeOneDate model0 "2020-06-15" = .ok (sc', some r) ∧
        r.changeDate = "2020-06-15") ↔
      (strLt sc2020.dfIndexMin (strftimeYMD (ymdMinusOneDay ⟨2020, 6, 15⟩)) = true ∧
        strLt "2020-06-15" sc2020.dfIndexMax = true)) ∧
    (¬(strLt sc2020.dfIndexMin (strftimeYMD (ymdMinusOneDay ⟨2020, 6, 15⟩)) = true ∧
        strLt "2020-06-15" sc2020.dfIndexMax = true) →
      sc2020.analyzeOneDate model0 "2020-06-15" = .ok (sc2020, none)) :=
  analyze_one_date_row_iff model0 sc2020 "2020-06-15" ⟨2020, 6, 15⟩ rfl

end SwiftGrasp

namespace SwiftGrasp

/-- **C2.** For a valid candidate date `d` the analyzer builds
`pre_period = [series_min_date, d−1]` and `post_period = [d, series_max_date]`,
invokes the causal-impact model on `(series, pre_period, post_period)`,
stores the returned impact keyed by `d`, and returns one row holding the
model's average-effect statistics, its p-value and `d`.  Concretely, for
a series covering 2020-01-01 through 2020-12-31, 2020-06-15 is analyzed
with pre-period `["2020-01-01","2020-06-14"]` and post-period
`["2020-06-15","2020-12-31"]`, while 2020-01-01 and 2020-12-31 produce
no result. -/
theorem analyze_one_date_valid (model : CIModel) (sc : StructuralChange)
    (dt : String) (t : YMD) (hp : strptimeYMD dt = some t)
    (he : (strLt sc.dfIndexMin (strftimeYMD (ymdMinusOneDay t))
        && strLt dt sc.dfIndexMax) = true) :
    (∃ ci sc', ci = model sc.df [sc.dfIndexMin, strftimeYMD (ymdMinusOneDay t)] [dt, sc.dfIndexMax] ∧
      sc.analyzeOneDate model dt = .ok (sc', some ⟨ci.summaryAverage, ci.pValue, dt⟩) ∧
      sc'.ciDict = dictSet sc.ciDict dt ci ∧
      dictGet sc'.ciDict dt = some ci) ∧
    (∀ m : CIModel, sc2020.analyzeOneDate m "2020-06-15" =
      .ok ({ sc2020 with ciDict := [("2020-06-15", m df2020 ["2020-01-01", "2020-06-14"] ["2020-06-15", "2020-12-31"])] },
        some { average := (m df2020 ["2020-01-01", "2020-06-14"] ["2020-06-15", "2020-12-31"]).summaryAverage
               pValue := (m df2020 ["2020-01-01", "2020-06-14"] ["2020-06-15", "2020-12-31"]).pValue
               changeDate := "2020-06-15" })) ∧
    (∀ m : CIModel, sc2020.analyzeOneDate m "2020-01-01" = .ok (sc2020, none)) ∧
    (∀ m : CIModel, sc2020.analyzeOneDate m "2020-12-31" = .ok (sc2020, none)) := by
  refine ⟨⟨_, _, rfl, analyzeOneDate_eligible model sc dt t hp he, rfl,
    dictGet_dictSet_self ..⟩, fun m => rfl, fun m => rfl, fun m => rfl⟩

/-- Witness for C2 at the concrete model `model0` and date 2020-06-15. -/
theorem analyze_one_date_valid_witness :
    ∃ ci sc', ci = model0 sc2020.df [sc2020.dfIndexMin, strftimeYMD (ymdMinusOneDay ⟨2020, 6, 15⟩)] ["2020-06-15", sc2020.dfIndexMax] ∧
      sc2020.analyzeOneDate model0 "2020-06-15" = .ok (sc', some ⟨ci.summaryAverage, ci.pValue, "2020-06-15"⟩) ∧
      sc'.ciDict = dictSet sc2020.ciDict "2020-06-15" ci ∧
      dictGet sc'.ciDict "2020-06-15" = some ci :=
  (analyze_one_date_valid model0 sc2020 "2020-06-15" ⟨2020, 6, 15⟩ rfl
    (by decide)).1

/-- **C3.** Contrary to the claim, `analyze()` on an empty candidate
list does not yield an empty summary: the loop collects no rows and
`pd.concat` on the empty list raises
`ValueError("No objects to concatenate")`. -/
theorem analyze_empty_list_raises (model : CIModel) (sc : StructuralChange)
    (h : sc.possibleDateList = []) :
    sc.analyze model = .error ⟨"ValueError", "No objects to concatenate"⟩ := by
  unfold StructuralChange.analyze
  rw [h]
  rfl

/-- Witness for C3: the concrete analyzer state with no candidates. -/
theorem analyze_empty_list_raises_witness :
    ({ sc2020 with possibleDateList := [] } : StructuralChange).analyze model0 =
      .error ⟨"ValueError", "No objects to concatenate"⟩ :=
  analyze_empty_list_raises model0 _ rfl

/-- **C4.** When every candidate date parses and at least one is
boundary-eligible, `analyze()` succeeds and the stored summary has
exactly one row per eligible occurrence of the candidate list
(duplicates not deduplicated), in original candidate order, each row
indexed by its candidate date. -/
theorem summary_rows_match (model : CIModel) (sc : StructuralChange)
    (hp : ∀ dt ∈ sc.possibleDateList, (strptimeYMD dt).isSome)
    (hne : sc.possibleDateList.filter (eligibleStr sc.dfIndexMin sc.dfIndexMax) ≠ []) :
    ∃ sc' rows, sc.analyze model = .ok sc' ∧ sc'.dfSummary = some rows ∧
      rows.map Row.changeDate =
        sc.possibleDateList.filter (eligibleStr sc.dfIndexMin sc.dfIndexMax) := by
  obtain ⟨sc1, rows, hloop, hmap⟩ :=
    analyzeLoop_spec model sc.possibleDateList sc hp
  have hrows : rows ≠ [] := by
    intro h
    apply hne
    rw [← hmap, h]
    rfl
  refine ⟨{ sc1 with dfSummary := some rows }, rows, ?_, rfl, hmap⟩
  exact (analyze_ok_iff model sc _).mpr ⟨sc1, rows, hloop, hrows, rfl⟩

/-- Witness for C4: the spec's example list over the 2020 series; only
2020-06-15 survives the boundary filter. -/
theorem summary_rows_match_witness :
    ∃ sc' rows, sc2020.analyze model0 = .ok sc' ∧ sc'.dfSummary = some rows ∧
      rows.map Row.changeDate =
        sc2020.possibleDateList.filter (eligibleStr sc2020.dfIndexMin sc2020.dfIndexMax) :=
  summary_rows_match model0 sc2020 (by decide) (by decide)

/-- **C5.** `summary()` called before `analyze()` warns and returns no
table (it does not raise); after a successful `analyze()` it returns
the stored summary table. -/
theorem summary_before_after (obj : PyObject) (l : List String)
    (model : CIModel) (sc0 sc1 : StructuralChange)
    (h0 : StructuralChange.init obj l = .ok sc0)
    (h1 : sc0.analyze model = .ok sc1) :
    sc0.summary = { warning := some "No summary info yet, might want to call obj.analyze() first.", table := none } ∧
    ∃ rows, sc1.dfSummary = some rows ∧
      sc1.summary = { warning := none, table := some rows } := by
  constructor
  · obtain ⟨hs, -⟩ := init_fields obj l sc0 h0
    simp [StructuralChange.summary, hs]
  · obtain ⟨sc1', rows, -, -, heq⟩ := (analyze_ok_iff model sc0 sc1).mp h1
    subst heq
    exact ⟨rows, rfl, rfl⟩

/-- Witness for C5: construct over the 2020 series with the single
candidate 2020-06-15, then analyze under `model0`. -/
theorem summary_before_after_witness :
    sc2020One.summary = { warning := some "No summary info yet, might want to call obj.analyze() first.", table := none } ∧
    ∃ rows, sc2020Analyzed.dfSummary = some rows ∧
      sc2020Analyzed.summary = { warning := none, table := some rows } :=
  summary_before_after (.dataFrame df2020) ["2020-06-15"] model0
    sc2020One sc2020Analyzed rfl rfl

end SwiftGrasp

namespace SwiftGrasp

/-- **C6, counterexample.** The claim asserts the missing-date failure
of `plot` is distinguishable from the never-analyzed case.  It is not:
`plot("2099-01-01")` on a freshly constructed analyzer and on one whose
`analyze()` ran (without that date) raise the *same* `KeyError`. -/
theorem plot_not_distinguishable :
    sc2020One.analyze model0 = .ok sc2020Analyzed ∧
    sc2020One.plot "2099-01-01" = .error ⟨"KeyError", "2099-01-01"⟩ ∧
    sc2020Analyzed.plot "2099-01-01" = .error ⟨"KeyError", "2099-01-01"⟩ ∧
    sc2020One.plot "2099-01-01" = sc2020Analyzed.plot "2099-01-01" :=
  ⟨rfl, rfl, rfl, rfl⟩

/-- **C6, amended.** For every date not present in the result store
(never analyzed, or skipped as boundary-ineligible), `plot` fails with
a `KeyError` naming the date; the failure is identical whether or not
`analyze()` was ever called, so the two situations are not
distinguishable. -/
theorem plot_missing_key (sc : StructuralChange) (dt : String)
    (h : dictGet sc.ciDict dt = none) :
    sc.plot dt = .error ⟨"KeyError", dt⟩ := by
  simp [StructuralChange.plot, h]

/-- Witness for the amended C6: a fresh analyzer and an unknown date. -/
theorem plot_missing_key_witness :
    sc2020.plot "2099-01-01" = .error ⟨"KeyError", "2099-01-01"⟩ :=
  plot_missing_key sc2020 "2099-01-01" rfl

/-- **C7.** Input-contract violations fail immediately: constructing a
`StructuralChange` from a non-`DataFrame` raises `TypeError`, and a
candidate date that does not parse as `YYYY-MM-DD` makes
`_analyze_one_date` raise `ValueError` instead of silently skipping. -/
theorem contract_violation_raises (obj : PyObject) (l : List String)
    (model : CIModel) (sc : StructuralChange) (dt : String)
    (hobj : ∀ df, obj ≠ .dataFrame df) (hdt : strptimeYMD dt = none) :
    StructuralChange.init obj l =
      .error ⟨"TypeError", "Input needs to be pandas DataFrame object."⟩ ∧
    sc.analyzeOneDate model dt =
      .error ⟨"ValueError", "time data does not match format %Y-%m-%d"⟩ := by
  constructor
  · unfold StructuralChange.init
    cases obj with
    | dataFrame df => exact absurd rfl (hobj df)
    | pyStr s => rfl
    | pyNone => rfl
    | pyExc e => rfl
  · exact analyzeOneDate_malformed model sc dt hdt

/-- Witness for C7: a plain string instead of a frame, and the
unparseable date "June 15". -/
theorem contract_violation_raises_witness :
    StructuralChange.init (.pyStr "AAPL") ["2020-06-15"] =
      .error ⟨"TypeError", "Input needs to be pandas DataFrame object."⟩ ∧
    sc2020.analyzeOneDate model0 "June 15" =
      .error ⟨"ValueError", "time data does not match format %Y-%m-%d"⟩ :=
  contract_violation_raises (.pyStr "AAPL") ["2020-06-15"] model0 sc2020
    "June 15" (fun _ h => PyObject.noConfusion h) rfl

/-- **C8.** The constructor records `series_min_date`/`series_max_date`
once, as the `YYYY-MM-DD`-formatted extremes of the index at
construction time, and no later operation (`_analyze_one_date`,
`analyze`) ever changes the recorded strings — they are fixed for the
analyzer's lifetime regardless of later mutation of the input series. -/
theorem bounds_recorded_once (df : DataFrame) (l : List String) (mn mx : YMD)
    (hmn : indexMin df.index = some mn) (hmx : indexMax df.index = some mx) :
    (StructuralChange.init (.dataFrame df) l =
      .ok { df := df, possibleDateList := l, dfIndexMin := strftimeYMD mn, dfIndexMax := strftimeYMD mx, dfSummary := none, ciDict := [] }) ∧
    (∀ (model : CIModel) (sc sc' : StructuralChange) (dt : String) (r : Option Row),
      sc.analyzeOneDate model dt = .ok (sc', r) →
      sc'.dfIndexMin = sc.dfIndexMin ∧ sc'.dfIndexMax = sc.dfIndexMax) ∧
    (∀ (model : CIModel) (sc sc' : StructuralChange),
      sc.analyze model = .ok sc' →
      sc'.dfIndexMin = sc.dfIndexMin ∧ sc'.dfIndexMax = sc.dfIndexMax) := by
  refine ⟨init_ok df l mn mx hmn hmx, ?_, ?_⟩
  · intro model sc sc' dt r h
    obtain ⟨-, -, h3, h4, -⟩ := analyzeOneDate_preserves model sc sc' dt r h
    exact ⟨h3, h4⟩
  · intro model sc sc' h
    obtain ⟨sc1, rows, hloop, -, heq⟩ := (analyze_ok_iff model sc sc').mp h
    obtain ⟨-, -, h3, h4, -⟩ :=
      analyzeLoop_preserves model sc.possibleDateList sc sc1 rows hloop
    rw [heq]
    exact ⟨h3, h4⟩

/-- Witness for C8: over the 2020 frame the recorded bounds are the
formatted index extremes. -/
theorem bounds_recorded_once_witness :
    StructuralChange.init (.dataFrame df2020) ["2020-01-01", "2020-06-15", "2020-12-31"] =
      .ok { df := df2020, possibleDateList := ["2020-01-01", "2020-06-15", "2020-12-31"], dfIndexMin := strftimeYMD ⟨2020, 1, 1⟩, dfIndexMax := strftimeYMD ⟨2020, 12, 31⟩, dfSummary := none, ciDict := [] } :=
  (bounds_recorded_once df2020 ["2020-01-01", "2020-06-15", "2020-12-31"]
    ⟨2020, 1, 1⟩ ⟨2020, 12, 31⟩ rfl rfl).1

/-- **C9.** For any frequency string other than `"annual"` and
`"quarterly"`, `_validate_input_frequency` does not raise: it *returns*
the `ValueError` instance as an ordinary value, so the constructor's
assignment stores an exception object in `self.frequency`. -/
theorem frequency_error_object_returned (s : String)
    (h1 : s ≠ "annual") (h2 : s ≠ "quarterly") :
    validateInputFrequency (.pyStr s) =
      .ok (.pyExc ⟨"ValueError", "The input string has to be either 'quarterly or 'annual'."⟩) ∧
    fsdSetFrequency (.pyStr s) =
      .ok ⟨.pyExc ⟨"ValueError", "The input string has to be either 'quarterly or 'annual'."⟩⟩ := by
  have hna : ¬(s = "annual" ∨ s = "quarterly") := by
    rintro (h | h)
    exacts [h1 h, h2 h]
  constructor
  · simp [validateInputFrequency, hna]
  · simp [fsdSetFrequency, validateInputFrequency, hna, Except.map]

/-- Witness for C9: the plausible-but-invalid frequency "monthly". -/
theorem frequency_error_object_returned_witness :
    validateInputFrequency (.pyStr "monthly") =
      .ok (.pyExc ⟨"ValueError", "The input string has to be either 'quarterly or 'annual'."⟩) ∧
    fsdSetFrequency (.pyStr "monthly") =
      .ok ⟨.pyExc ⟨"ValueError", "The input string has to be either 'quarterly or 'annual'."⟩⟩ :=
  frequency_error_object_returned "monthly" (by decide) (by decide)

/-- **C10.** The result store maps each date to at most one impact:
re-analyzing a date already in the store overwrites its entry in place
(same number of entries, lookup returns the latest model result), the
analyze loop preserves key uniqueness, and on the concrete list
`["2020-06-15", "2020-06-15"]` `analyze()` leaves one store entry but
two summary rows. -/
theorem ci_dict_overwrite (model : CIModel) (sc : StructuralChange)
    (dt : String) (t : YMD) (hp : strptimeYMD dt = some t)
    (he : (strLt sc.dfIndexMin (strftimeYMD (ymdMinusOneDay t))
        && strLt dt sc.dfIndexMax) = true)
    (hk : hasKey sc.ciDict dt = true) :
    (∃ sc' r, sc.analyzeOneDate model dt = .ok (sc', some r) ∧
      sc'.ciDict.length = sc.ciDict.length ∧
      dictGet sc'.ciDict dt = some (model sc.df [sc.dfIndexMin, strftimeYMD (ymdMinusOneDay t)] [dt, sc.dfIndexMax])) ∧
    (∀ (dts : List String) (s0 s1 : StructuralChange) (rows : List Row),
      (s0.ciDict.map Prod.fst).Nodup →
      analyzeLoop model s0 dts = .ok (s1, rows) →
      (s1.ciDict.map Prod.fst).Nodup) ∧
    (∃ sc2 rows, ({ sc2020 with possibleDateList := ["2020-06-15", "2020-06-15"] } : StructuralChange).analyze model0 = .ok sc2 ∧
      sc2.ciDict.length = 1 ∧ sc2.dfSummary = some rows ∧ rows.length = 2) := by
  refine ⟨⟨_, _, analyzeOneDate_eligible model sc dt t hp he, ?_,
      dictGet_dictSet_self ..⟩,
    fun dts s0 s1 rows hnd hloop => analyzeLoop_nodup model dts s0 s1 rows hnd hloop,
    ⟨_, _, rfl, rfl, rfl, rfl⟩⟩
  exact dictSet_length_of_hasKey _ _ _ hk

/-- Witness for C10: re-analyzing 2020-06-15 over a store that already
holds an entry for it. -/
theorem ci_dict_overwrite_witness :
    ∃ sc' r, scPre.analyzeOneDate model0 "2020-06-15" = .ok (sc', some r) ∧
      sc'.ciDict.length = scPre.ciDict.length ∧
      dictGet sc'.ciDict "2020-06-15" =
        some (model0 scPre.df [scPre.dfIndexMin, strftimeYMD (ymdMinusOneDay ⟨2020, 6, 15⟩)] ["2020-06-15", scPre.dfIndexMax]) :=
  (ci_dict_overwrite model0 scPre "2020-06-15" ⟨2020, 6, 15⟩ rfl (by decide)
    rfl).1

end SwiftGrasp
